import Mathlib

/-!
# Verification of the Rehab Buddy adaptive session engine

Shallow embedding of the adaptive-difficulty and session-flow logic of the
Rehab Buddy skill (`difficulty_engine.py`, `deploy/session_flow.py`,
`deploy/progress_tracker.py`).

Modelling conventions:
* The per-user DynamoDB item is embedded as the structure `UserRecord`; each
  Python function that reads/updates the table becomes a pure function that
  takes and returns a `UserRecord`.  Timestamp bookkeeping fields
  (`last_updated` written on every update) are modelled only where a claim
  depends on them (the resume snapshot); they never influence control flow
  elsewhere.
* Wall-clock reads (`time.time()`, `datetime.now()`) are passed in as an
  explicit integer parameter `now` (seconds).
* The float comparison in `evaluate_session` (`count / total * 100 > 70`)
  is embedded as the exact integer comparison `count * 10 > 7 * total`; the
  two agree at every realizable count/total pair.  The float index
  computation in `reload_exercises` (`int(idx / old_len * new_len)`) is
  *not* replaced by exact arithmetic — the two differ at realizable inputs —
  but embedded by an explicit IEEE-754 binary64 model (`pyFloatRemap`).
* Python truthiness of the entries of a `skips` list is embedded by handing
  `evaluate_session` the list of truth values (`List Bool`).
-/

namespace RehabBuddy

/-! ## difficulty_engine.py : constants and the user record -/

/-- `DIFFICULTY_LEVELS = ["beginner", "intermediate", "advanced"]`. -/
def DIFFICULTY_LEVELS : List String := ["beginner", "intermediate", "advanced"]

/-- `FEEDBACK_COMFORTABLE = "comfortable"`. -/
def FEEDBACK_COMFORTABLE : String := "comfortable"

/-- `FEEDBACK_CHALLENGING = "challenging"`. -/
def FEEDBACK_CHALLENGING : String := "challenging"

/-- `FEEDBACK_TOO_HARD = "too-hard"`. -/
def FEEDBACK_TOO_HARD : String := "too-hard"

/-- One entry of the `difficulty_changes` history written by
`log_difficulty_change` (the timestamp string is not modelled). -/
structure DifficultyChange where
  old_difficulty : String
  new_difficulty : String
  user_requested : Bool
deriving DecidableEq, Repr

/-- One entry of the `exercise_feedback` history written by
`log_exercise_feedback` (the timestamp string is not modelled). -/
structure FeedbackEvent where
  exercise_id : String
  feedback_level : String
deriving DecidableEq, Repr

/-- The `session_progress` map written by `save_session_progress` from
`SessionState.save_progress`.  `last_updated` is the write timestamp in
seconds (`none` models an absent key). -/
structure Snapshot where
  last_updated : Option Int := none
  exerciseType : String := "physical"
  currentIndex : Nat := 0
  difficultyLevel : String := "beginner"
  exercise_ids : List String := []
  skips : List String := []
  repeats : List Nat := []
  feedback : List String := []
deriving DecidableEq, Repr

/-- The per-user DynamoDB item, restricted to the attributes the embedded
functions read or write.  A `none` / `[]` value models an absent attribute
(the source reads every attribute with a `.get(..., default)`). -/
structure UserRecord where
  difficulty_level : Option String := none
  difficulty_changes : List DifficultyChange := []
  exercise_feedback : List FeedbackEvent := []
  session_progress : Option Snapshot := none
deriving DecidableEq, Repr

/-! ## difficulty_engine.py : difficulty get/set/step -/

/-- `get_user_difficulty`: reads `difficulty_level` defaulting to
`"beginner"`, and normalizes any value outside `DIFFICULTY_LEVELS` back to
`"beginner"`. -/
def get_user_difficulty (db : UserRecord) : String :=
  if db.difficulty_level.getD "beginner" ∈ DIFFICULTY_LEVELS then
    db.difficulty_level.getD "beginner"
  else "beginner"

/-- `set_user_difficulty`: rejects levels outside `DIFFICULTY_LEVELS`
(returning `false` and leaving the record untouched), otherwise stores the
level and returns `true`. -/
def set_user_difficulty (db : UserRecord) (difficulty : String) :
    UserRecord × Bool :=
  if difficulty ∈ DIFFICULTY_LEVELS then
    ({ db with difficulty_level := some difficulty }, true)
  else
    (db, false)

/-- `log_difficulty_change`: appends a change entry to `difficulty_changes`
and keeps only the last 10 entries. -/
def log_difficulty_change (db : UserRecord)
    (old_difficulty new_difficulty : String) (user_requested : Bool) :
    UserRecord :=
  let changes := db.difficulty_changes ++
    [⟨old_difficulty, new_difficulty, user_requested⟩]
  let changes := if changes.length > 10
    then changes.drop (changes.length - 10) else changes
  { db with difficulty_changes := changes }

/-- `adjust_difficulty`: moves the stored level one position toward easier
(`make_easier = true`) or harder, clamped at the ends of
`DIFFICULTY_LEVELS`; persists and logs the change only when the level
actually changed; returns the resulting level.  (`max(0, i-1)` is Nat
truncated subtraction; `DIFFICULTY_LEVELS[new_index]` is in range because
the current level is always a member, so `getD` never hits its default.) -/
def adjust_difficulty (db : UserRecord) (make_easier : Bool) :
    UserRecord × String :=
  let current_difficulty := get_user_difficulty db
  let current_index := DIFFICULTY_LEVELS.indexOf current_difficulty
  let new_index := if make_easier then current_index - 1
    else min (DIFFICULTY_LEVELS.length - 1) (current_index + 1)
  let new_difficulty := DIFFICULTY_LEVELS.getD new_index "beginner"
  if new_difficulty ≠ current_difficulty then
    let db1 := (set_user_difficulty db new_difficulty).1
    let db2 := log_difficulty_change db1 current_difficulty new_difficulty true
    (db2, new_difficulty)
  else
    (db, new_difficulty)

/-! ## difficulty_engine.py : feedback logging and immediate feedback -/

/-- `log_exercise_feedback`: appends a feedback event to
`exercise_feedback` and keeps only the last 50 entries; returns success. -/
def log_exercise_feedback (db : UserRecord)
    (exercise_id feedback_level : String) : UserRecord × Bool :=
  let fb := db.exercise_feedback ++ [⟨exercise_id, feedback_level⟩]
  let fb := if fb.length > 50 then fb.drop (fb.length - 50) else fb
  ({ db with exercise_feedback := fb }, true)

/-- The dictionary returned by `process_difficulty_feedback`; keys absent
from a given return path are modelled as `none`. -/
structure FeedbackResult where
  difficulty_changed : Bool
  make_easier : Option Bool := none
  old_difficulty : Option String := none
  new_difficulty : Option String := none
  feedback_logged : Option Bool := none
  immediate_action : Bool
deriving DecidableEq, Repr

/-- `process_difficulty_feedback`: logs the feedback unconditionally; when
the feedback is `too-hard` and the current level is above the floor, steps
one level easier, logs the change as system-initiated, and reports
`immediate_action = true`; every other path reports no change. -/
def process_difficulty_feedback (db : UserRecord)
    (feedback_level exercise_id : String) : UserRecord × FeedbackResult :=
  let logres := log_exercise_feedback db exercise_id feedback_level
  let db1 := logres.1
  let log_success := logres.2
  if feedback_level = FEEDBACK_TOO_HARD then
    let current_difficulty := get_user_difficulty db1
    let current_index := DIFFICULTY_LEVELS.indexOf current_difficulty
    if current_index > 0 then
      let new_difficulty := DIFFICULTY_LEVELS.getD (current_index - 1) "beginner"
      let db2 := (set_user_difficulty db1 new_difficulty).1
      let db3 := log_difficulty_change db2 current_difficulty new_difficulty false
      (db3, { difficulty_changed := true, make_easier := some true,
              old_difficulty := some current_difficulty,
              new_difficulty := some new_difficulty,
              immediate_action := true })
    else
      (db1, { difficulty_changed := false, feedback_logged := some log_success,
              immediate_action := false })
  else
    (db1, { difficulty_changed := false, feedback_logged := some log_success,
            immediate_action := false })

/-! ## difficulty_engine.py : end-of-session evaluation -/

/-- The `max_consecutive_skips` loop of `evaluate_session`: the longest run
of truthy entries in the skip list. -/
def max_consecutive_skips (skips : List Bool) : Nat :=
  (skips.foldl
    (fun acc is_skipped =>
      if is_skipped then (acc.1 + 1, max acc.2 (acc.1 + 1)) else (0, acc.2))
    ((0 : Nat), (0 : Nat))).2

/-- The dictionary returned by `evaluate_session`; keys absent from a given
return path are modelled as `none`. -/
structure EvalResult where
  difficulty_changed : Bool
  make_easier : Option Bool := none
  old_difficulty : Option String := none
  new_difficulty : Option String := none
  current_difficulty : Option String := none
  congratulate : Bool
deriving DecidableEq, Repr

/-- `evaluate_session`: counts feedback kinds, measures the longest run of
truthy skip entries, then (1) steps down when any `too-hard` feedback or a
run of ≥ 2 consecutive skips is present, (2) otherwise steps up when at
least two feedback entries were recorded and strictly more than 70% of them
are `comfortable`, (3) otherwise reports no change.  The float comparison
`comfortable_count / total * 100 > 70` is embedded exactly as
`comfortable_count * 10 > 7 * total` (with percentage 0 when the total is
0, which the integer form subsumes since the count is at most the total). -/
def evaluate_session (db : UserRecord) (feedback : List String)
    (skips : List Bool) : UserRecord × EvalResult :=
  let total_feedback := feedback.length
  let comfortable_count := feedback.countP (· == FEEDBACK_COMFORTABLE)
  let too_hard_count := feedback.countP (· == FEEDBACK_TOO_HARD)
  if too_hard_count > 0 ∨ max_consecutive_skips skips ≥ 2 then
    let current_difficulty := get_user_difficulty db
    let current_index := DIFFICULTY_LEVELS.indexOf current_difficulty
    if current_index > 0 then
      let new_difficulty := DIFFICULTY_LEVELS.getD (current_index - 1) "beginner"
      let db1 := (set_user_difficulty db new_difficulty).1
      let db2 := log_difficulty_change db1 current_difficulty new_difficulty false
      (db2, { difficulty_changed := true, make_easier := some true,
              old_difficulty := some current_difficulty,
              new_difficulty := some new_difficulty,
              congratulate := false })
    else
      (db, { difficulty_changed := false,
             current_difficulty := some (get_user_difficulty db),
             congratulate := false })
  else if comfortable_count * 10 > 7 * total_feedback ∧ total_feedback ≥ 2 then
    let current_difficulty := get_user_difficulty db
    let current_index := DIFFICULTY_LEVELS.indexOf current_difficulty
    if current_index < DIFFICULTY_LEVELS.length - 1 then
      let new_difficulty := DIFFICULTY_LEVELS.getD (current_index + 1) "beginner"
      let db1 := (set_user_difficulty db new_difficulty).1
      let db2 := log_difficulty_change db1 current_difficulty new_difficulty false
      (db2, { difficulty_changed := true, make_easier := some false,
              old_difficulty := some current_difficulty,
              new_difficulty := some new_difficulty,
              congratulate := true })
    else
      (db, { difficulty_changed := false,
             current_difficulty := some (get_user_difficulty db),
             congratulate := false })
  else
    (db, { difficulty_changed := false,
           current_difficulty := some (get_user_difficulty db),
           congratulate := false })

/-! ### spec-side helper levels (used only in theorem statements) -/

/-- One level easier on the ordered scale, clamped at `beginner`. -/
def easierLevel (d : String) : String :=
  DIFFICULTY_LEVELS.getD (DIFFICULTY_LEVELS.indexOf d - 1) "beginner"

/-- One level harder on the ordered scale, clamped at `advanced`. -/
def harderLevel (d : String) : String :=
  DIFFICULTY_LEVELS.getD
    (min (DIFFICULTY_LEVELS.length - 1) (DIFFICULTY_LEVELS.indexOf d + 1))
    "beginner"

/-! ### basic facts about the difficulty scale -/

theorem get_user_difficulty_mem (db : UserRecord) :
    get_user_difficulty db ∈ DIFFICULTY_LEVELS := by
  unfold get_user_difficulty
  by_cases h : db.difficulty_level.getD "beginner" ∈ DIFFICULTY_LEVELS
  · rwa [if_pos h]
  · rw [if_neg h]; decide

theorem get_user_difficulty_cases (db : UserRecord) :
    get_user_difficulty db = "beginner" ∨
    get_user_difficulty db = "intermediate" ∨
    get_user_difficulty db = "advanced" := by
  have h := get_user_difficulty_mem db
  simpa [DIFFICULTY_LEVELS] using h

/-! ### reduction lemmas for the three concrete levels -/

theorem getD_easier_beginner :
    DIFFICULTY_LEVELS.getD (DIFFICULTY_LEVELS.indexOf "beginner" - 1) "beginner"
      = "beginner" := rfl

theorem getD_easier_intermediate :
    DIFFICULTY_LEVELS.getD (DIFFICULTY_LEVELS.indexOf "intermediate" - 1) "beginner"
      = "beginner" := rfl

theorem getD_easier_advanced :
    DIFFICULTY_LEVELS.getD (DIFFICULTY_LEVELS.indexOf "advanced" - 1) "beginner"
      = "intermediate" := rfl

theorem getD_harder_beginner :
    DIFFICULTY_LEVELS.getD (DIFFICULTY_LEVELS.indexOf "beginner" + 1) "beginner"
      = "intermediate" := rfl

theorem getD_harder_intermediate :
    DIFFICULTY_LEVELS.getD (DIFFICULTY_LEVELS.indexOf "intermediate" + 1) "beginner"
      = "advanced" := rfl

theorem getD_min_harder_beginner :
    DIFFICULTY_LEVELS.getD
      (min (DIFFICULTY_LEVELS.length - 1) (DIFFICULTY_LEVELS.indexOf "beginner" + 1))
      "beginner" = "intermediate" := rfl

theorem getD_min_harder_intermediate :
    DIFFICULTY_LEVELS.getD
      (min (DIFFICULTY_LEVELS.length - 1) (DIFFICULTY_LEVELS.indexOf "intermediate" + 1))
      "beginner" = "advanced" := rfl

theorem getD_min_harder_advanced :
    DIFFICULTY_LEVELS.getD
      (min (DIFFICULTY_LEVELS.length - 1) (DIFFICULTY_LEVELS.indexOf "advanced" + 1))
      "beginner" = "advanced" := rfl

@[simp]
theorem log_difficulty_change_level (db : UserRecord) (o n : String) (u : Bool) :
    (log_difficulty_change db o n u).difficulty_level = db.difficulty_level := rfl

@[simp]
theorem log_difficulty_change_feedback (db : UserRecord) (o n : String) (u : Bool) :
    (log_difficulty_change db o n u).exercise_feedback = db.exercise_feedback := rfl

@[simp]
theorem log_exercise_feedback_level (db : UserRecord) (e l : String) :
    (log_exercise_feedback db e l).1.difficulty_level = db.difficulty_level := rfl

@[simp]
theorem log_exercise_feedback_changes (db : UserRecord) (e l : String) :
    (log_exercise_feedback db e l).1.difficulty_changes = db.difficulty_changes := rfl

@[simp]
theorem get_user_difficulty_log_exercise_feedback (db : UserRecord) (e l : String) :
    get_user_difficulty (log_exercise_feedback db e l).1 = get_user_difficulty db := rfl

@[simp]
theorem get_user_difficulty_log_difficulty_change (db : UserRecord) (o n : String)
    (u : Bool) :
    get_user_difficulty (log_difficulty_change db o n u) = get_user_difficulty db := rfl

theorem set_user_difficulty_fst (db : UserRecord) (d : String)
    (h : d ∈ DIFFICULTY_LEVELS) :
    (set_user_difficulty db d).1 = { db with difficulty_level := some d } := by
  unfold set_user_difficulty
  rw [if_pos h]

theorem get_user_difficulty_set (db : UserRecord) (d : String)
    (h : d ∈ DIFFICULTY_LEVELS) :
    get_user_difficulty { db with difficulty_level := some d } = d := by
  unfold get_user_difficulty
  simpa using fun h' => absurd h h'

theorem easierLevel_beginner : easierLevel "beginner" = "beginner" := rfl

theorem easierLevel_intermediate : easierLevel "intermediate" = "beginner" := rfl

theorem easierLevel_advanced : easierLevel "advanced" = "intermediate" := rfl

theorem harderLevel_beginner : harderLevel "beginner" = "intermediate" := rfl

theorem harderLevel_intermediate : harderLevel "intermediate" = "advanced" := rfl

theorem harderLevel_advanced : harderLevel "advanced" = "advanced" := rfl

/-! ### per-level characterization of `adjust_difficulty` -/

theorem adjust_easier_beginner (db : UserRecord)
    (h : get_user_difficulty db = "beginner") :
    adjust_difficulty db true = (db, "beginner") := by
  simp only [adjust_difficulty, h, if_true]
  rw [getD_easier_beginner]
  simp

theorem adjust_easier_intermediate (db : UserRecord)
    (h : get_user_difficulty db = "intermediate") :
    adjust_difficulty db true =
      (log_difficulty_change { db with difficulty_level := some "beginner" }
        "intermediate" "beginner" true, "beginner") := by
  simp only [adjust_difficulty, h, if_true]
  rw [getD_easier_intermediate]
  simp [set_user_difficulty, DIFFICULTY_LEVELS]

theorem adjust_easier_advanced (db : UserRecord)
    (h : get_user_difficulty db = "advanced") :
    adjust_difficulty db true =
      (log_difficulty_change { db with difficulty_level := some "intermediate" }
        "advanced" "intermediate" true, "intermediate") := by
  simp only [adjust_difficulty, h, if_true]
  rw [getD_easier_advanced]
  simp [set_user_difficulty, DIFFICULTY_LEVELS]

theorem adjust_harder_beginner (db : UserRecord)
    (h : get_user_difficulty db = "beginner") :
    adjust_difficulty db false =
      (log_difficulty_change { db with difficulty_level := some "intermediate" }
        "beginner" "intermediate" true, "intermediate") := by
  simp only [adjust_difficulty, h, Bool.false_eq_true, if_false]
  rw [getD_min_harder_beginner]
  simp [set_user_difficulty, DIFFICULTY_LEVELS]

theorem adjust_harder_intermediate (db : UserRecord)
    (h : get_user_difficulty db = "intermediate") :
    adjust_difficulty db false =
      (log_difficulty_change { db with difficulty_level := some "advanced" }
        "intermediate" "advanced" true, "advanced") := by
  simp only [adjust_difficulty, h, Bool.false_eq_true, if_false]
  rw [getD_min_harder_intermediate]
  simp [set_user_difficulty, DIFFICULTY_LEVELS]

theorem adjust_harder_advanced (db : UserRecord)
    (h : get_user_difficulty db = "advanced") :
    adjust_difficulty db false = (db, "advanced") := by
  simp only [adjust_difficulty, h, Bool.false_eq_true, if_false]
  rw [getD_min_harder_advanced]
  simp

/-- A sequence of `adjust_difficulty` calls (`true` = easier), keeping the
record that results from each call. -/
def adjust_many (db : UserRecord) (dirs : List Bool) : UserRecord :=
  dirs.foldl (fun d e => (adjust_difficulty d e).1) db

theorem adjust_many_nil (db : UserRecord) : adjust_many db [] = db := rfl

theorem adjust_many_cons (db : UserRecord) (e : Bool) (l : List Bool) :
    adjust_many db (e :: l) = adjust_many (adjust_difficulty db e).1 l := rfl


/-! ## Claim theorems for the Difficulty Adaptation Engine -/

/-- C4: every `adjust_difficulty` call returns a level in
`{beginner, intermediate, advanced}`, stores a level that reads back equal
to the returned one, and moves at most one position on the ordered scale;
any sequence of calls keeps the stored level inside the scale; repeated
easier-steps from beginner leave the record untouched and return beginner,
symmetrically for harder-steps at advanced; and the record is written
(level persisted, change entry logged) exactly when the level changed. -/
theorem adjust_difficulty_invariants :
    (∀ (db : UserRecord) (e : Bool),
      (adjust_difficulty db e).2 ∈ DIFFICULTY_LEVELS ∧
      get_user_difficulty (adjust_difficulty db e).1 = (adjust_difficulty db e).2 ∧
      ((DIFFICULTY_LEVELS.indexOf (adjust_difficulty db e).2 : Int) -
        DIFFICULTY_LEVELS.indexOf (get_user_difficulty db)).natAbs ≤ 1) ∧
    (∀ (db : UserRecord) (dirs : List Bool),
      get_user_difficulty (adjust_many db dirs) ∈ DIFFICULTY_LEVELS) ∧
    (∀ (db : UserRecord) (n : Nat), get_user_difficulty db = "beginner" →
      adjust_many db (List.replicate n true) = db ∧
      (adjust_difficulty db true).2 = "beginner") ∧
    (∀ (db : UserRecord) (n : Nat), get_user_difficulty db = "advanced" →
      adjust_many db (List.replicate n false) = db ∧
      (adjust_difficulty db false).2 = "advanced") ∧
    (∀ (db : UserRecord) (e : Bool),
      ((adjust_difficulty db e).2 = get_user_difficulty db →
        (adjust_difficulty db e).1 = db) ∧
      ((adjust_difficulty db e).2 ≠ get_user_difficulty db →
        (adjust_difficulty db e).1 =
          log_difficulty_change
            { db with difficulty_level := some (adjust_difficulty db e).2 }
            (get_user_difficulty db) (adjust_difficulty db e).2 true)) := by
  have key : ∀ (db : UserRecord) (e : Bool),
      (adjust_difficulty db e).2 ∈ DIFFICULTY_LEVELS ∧
      get_user_difficulty (adjust_difficulty db e).1 = (adjust_difficulty db e).2 ∧
      ((DIFFICULTY_LEVELS.indexOf (adjust_difficulty db e).2 : Int) -
        DIFFICULTY_LEVELS.indexOf (get_user_difficulty db)).natAbs ≤ 1 ∧
      ((adjust_difficulty db e).2 = get_user_difficulty db →
        (adjust_difficulty db e).1 = db) ∧
      ((adjust_difficulty db e).2 ≠ get_user_difficulty db →
        (adjust_difficulty db e).1 =
          log_difficulty_change
            { db with difficulty_level := some (adjust_difficulty db e).2 }
            (get_user_difficulty db) (adjust_difficulty db e).2 true) := by
    intro db e
    rcases get_user_difficulty_cases db with h | h | h <;> cases e
    · rw [adjust_harder_beginner db h, h]
      dsimp only
      refine ⟨by decide, ?_, by decide, by simp, fun _ => rfl⟩
      rw [get_user_difficulty_log_difficulty_change, get_user_difficulty_set]
      decide
    · rw [adjust_easier_beginner db h, h]
      dsimp only
      exact ⟨by decide, rfl, by decide, fun _ => rfl, fun hne => absurd rfl hne⟩
    · rw [adjust_harder_intermediate db h, h]
      dsimp only
      refine ⟨by decide, ?_, by decide, by simp, fun _ => rfl⟩
      rw [get_user_difficulty_log_difficulty_change, get_user_difficulty_set]
      decide
    · rw [adjust_easier_intermediate db h, h]
      dsimp only
      refine ⟨by decide, ?_, by decide, by simp, fun _ => rfl⟩
      rw [get_user_difficulty_log_difficulty_change, get_user_difficulty_set]
      decide
    · rw [adjust_harder_advanced db h, h]
      dsimp only
      exact ⟨by decide, rfl, by decide, fun _ => rfl, fun hne => absurd rfl hne⟩
    · rw [adjust_easier_advanced db h, h]
      dsimp only
      refine ⟨by decide, ?_, by decide, by simp, fun _ => rfl⟩
      rw [get_user_difficulty_log_difficulty_change, get_user_difficulty_set]
      decide
  refine ⟨fun db e => ⟨(key db e).1, (key db e).2.1, (key db e).2.2.1⟩,
          fun db dirs => get_user_difficulty_mem _, ?_, ?_,
          fun db e => ⟨(key db e).2.2.2.1, (key db e).2.2.2.2⟩⟩
  · intro db n h
    refine ⟨?_, congrArg Prod.snd (adjust_easier_beginner db h)⟩
    induction n with
    | zero => rfl
    | succ k ih =>
      rw [List.replicate_succ, adjust_many_cons, adjust_easier_beginner db h]
      exact ih
  · intro db n h
    refine ⟨?_, congrArg Prod.snd (adjust_harder_advanced db h)⟩
    induction n with
    | zero => rfl
    | succ k ih =>
      rw [List.replicate_succ, adjust_many_cons, adjust_harder_advanced db h]
      exact ih

/-- Witness for C4: five easier-steps from a beginner record are a no-op. -/
theorem adjust_difficulty_invariants_witness :
    get_user_difficulty ({ difficulty_level := some "beginner" } : UserRecord)
      = "beginner" ∧
    adjust_many ({ difficulty_level := some "beginner" } : UserRecord)
      (List.replicate 5 true) = { difficulty_level := some "beginner" } :=
  ⟨by decide,
   (adjust_difficulty_invariants.2.2.1 { difficulty_level := some "beginner" } 5
     (by decide)).1⟩


theorem set_user_difficulty_feedback (db : UserRecord) (d : String) :
    (set_user_difficulty db d).1.exercise_feedback = db.exercise_feedback := by
  unfold set_user_difficulty
  split <;> rfl

/-- C1: whenever any feedback entry is `too-hard` or the skip record has a
run of two or more consecutive (truthy) skips, `evaluate_session` moves the
stored difficulty exactly one level easier — a no-op at beginner — with
`congratulate = false`, and this holds for every feedback list, i.e.
regardless of the comfortable-feedback ratio. -/
theorem evaluate_session_step_down (db : UserRecord) (feedback : List String)
    (skips : List Bool)
    (h : FEEDBACK_TOO_HARD ∈ feedback ∨ max_consecutive_skips skips ≥ 2) :
    get_user_difficulty (evaluate_session db feedback skips).1 =
      easierLevel (get_user_difficulty db) ∧
    (evaluate_session db feedback skips).2.congratulate = false ∧
    ((evaluate_session db feedback skips).2.difficulty_changed = true ↔
      get_user_difficulty db ≠ "beginner") := by
  have hc : feedback.countP (· == FEEDBACK_TOO_HARD) > 0 ∨
      max_consecutive_skips skips ≥ 2 := by
    rcases h with hm | hs
    · exact Or.inl (List.countP_pos_iff.mpr ⟨_, hm, by simp⟩)
    · exact Or.inr hs
  simp only [evaluate_session]
  rw [if_pos hc]
  rcases get_user_difficulty_cases db with hd | hd | hd <;> rw [hd]
  · rw [if_neg (by decide : ¬ DIFFICULTY_LEVELS.indexOf "beginner" > 0)]
    dsimp only
    rw [easierLevel_beginner]
    exact ⟨hd, rfl, by simp⟩
  · rw [if_pos (by decide : DIFFICULTY_LEVELS.indexOf "intermediate" > 0),
        getD_easier_intermediate]
    dsimp only
    rw [easierLevel_intermediate]
    refine ⟨?_, rfl, by simp⟩
    rw [get_user_difficulty_log_difficulty_change,
        set_user_difficulty_fst _ _ (by decide), get_user_difficulty_set]
    decide
  · rw [if_pos (by decide : DIFFICULTY_LEVELS.indexOf "advanced" > 0),
        getD_easier_advanced]
    dsimp only
    rw [easierLevel_advanced]
    refine ⟨?_, rfl, by simp⟩
    rw [get_user_difficulty_log_difficulty_change,
        set_user_difficulty_fst _ _ (by decide), get_user_difficulty_set]
    decide

/-- Witness for C1: the spec example — skip pattern `[true, true, false]`,
all-comfortable feedback (so a 100% comfortable ratio), at intermediate —
still steps down to beginner with `congratulate = false`. -/
theorem evaluate_session_step_down_witness :
    (FEEDBACK_TOO_HARD ∈ (["comfortable", "comfortable", "comfortable"] :
        List String) ∨
      max_consecutive_skips [true, true, false] ≥ 2) ∧
    get_user_difficulty (evaluate_session { difficulty_level := some "intermediate" }
      ["comfortable", "comfortable", "comfortable"] [true, true, false]).1 =
      "beginner" ∧
    (evaluate_session { difficulty_level := some "intermediate" }
      ["comfortable", "comfortable", "comfortable"]
      [true, true, false]).2.congratulate = false := by
  have h := evaluate_session_step_down { difficulty_level := some "intermediate" }
    ["comfortable", "comfortable", "comfortable"] [true, true, false]
    (Or.inr (by decide))
  exact ⟨Or.inr (by decide), by rw [h.1]; decide, h.2.1⟩

/-- C2 counterexample: at advanced, with no step-down signal, two-plus
feedback entries and 100% comfortable, the claimed `congratulate = true`
fails — the code falls through to the no-change branch with
`congratulate = false`. -/
theorem evaluate_session_step_up_counterexample :
    ¬(FEEDBACK_TOO_HARD ∈ (["comfortable", "comfortable", "comfortable"] :
        List String) ∨ max_consecutive_skips [] ≥ 2) ∧
    (["comfortable", "comfortable", "comfortable"] : List String).length ≥ 2 ∧
    (["comfortable", "comfortable", "comfortable"] : List String).countP
      (· == FEEDBACK_COMFORTABLE) * 10 >
      7 * (["comfortable", "comfortable", "comfortable"] : List String).length ∧
    get_user_difficulty ({ difficulty_level := some "advanced" } : UserRecord)
      = "advanced" ∧
    (evaluate_session { difficulty_level := some "advanced" }
      ["comfortable", "comfortable", "comfortable"] []).2.congratulate = false ∧
    (evaluate_session { difficulty_level := some "advanced" }
      ["comfortable", "comfortable", "comfortable"] []).2.difficulty_changed
      = false := by
  decide

/-- C2 (amended): if the step-down rule did not fire, at least two feedback
entries exist and strictly more than 70% of them are `comfortable`, the
stored level moves exactly one level harder (no-op at advanced), and
`congratulate = true` (equally `difficulty_changed = true`) exactly when the
level was below advanced; at advanced the result is the no-change outcome
with `congratulate = false`. -/
theorem evaluate_session_step_up (db : UserRecord) (feedback : List String)
    (skips : List Bool)
    (h1 : ¬(FEEDBACK_TOO_HARD ∈ feedback ∨ max_consecutive_skips skips ≥ 2))
    (h2 : feedback.length ≥ 2)
    (h3 : feedback.countP (· == FEEDBACK_COMFORTABLE) * 10 >
      7 * feedback.length) :
    get_user_difficulty (evaluate_session db feedback skips).1 =
      harderLevel (get_user_difficulty db) ∧
    ((evaluate_session db feedback skips).2.congratulate = true ↔
      get_user_difficulty db ≠ "advanced") ∧
    ((evaluate_session db feedback skips).2.difficulty_changed = true ↔
      get_user_difficulty db ≠ "advanced") := by
  push_neg at h1
  have hc : ¬(feedback.countP (· == FEEDBACK_TOO_HARD) > 0 ∨
      max_consecutive_skips skips ≥ 2) := by
    rintro (hp | hs)
    · rcases List.countP_pos_iff.mp hp with ⟨a, ha, hpa⟩
      have ha' : a = FEEDBACK_TOO_HARD := by simpa using hpa
      exact h1.1 (ha' ▸ ha)
    · omega
  simp only [evaluate_session]
  rw [if_neg hc, if_pos ⟨h3, h2⟩]
  rcases get_user_difficulty_cases db with hd | hd | hd <;> rw [hd]
  · rw [if_pos (by decide :
        DIFFICULTY_LEVELS.indexOf "beginner" < DIFFICULTY_LEVELS.length - 1),
        getD_harder_beginner]
    dsimp only
    rw [harderLevel_beginner]
    refine ⟨?_, by simp, by simp⟩
    rw [get_user_difficulty_log_difficulty_change,
        set_user_difficulty_fst _ _ (by decide), get_user_difficulty_set]
    decide
  · rw [if_pos (by decide :
        DIFFICULTY_LEVELS.indexOf "intermediate" < DIFFICULTY_LEVELS.length - 1),
        getD_harder_intermediate]
    dsimp only
    rw [harderLevel_intermediate]
    refine ⟨?_, by simp, by simp⟩
    rw [get_user_difficulty_log_difficulty_change,
        set_user_difficulty_fst _ _ (by decide), get_user_difficulty_set]
    decide
  · rw [if_neg (by decide :
        ¬ DIFFICULTY_LEVELS.indexOf "advanced" < DIFFICULTY_LEVELS.length - 1)]
    dsimp only
    rw [harderLevel_advanced]
    exact ⟨hd, by simp, by simp⟩

/-- Witness for C2: all-comfortable feedback at beginner steps up to
intermediate with `congratulate = true`. -/
theorem evaluate_session_step_up_witness :
    get_user_difficulty (evaluate_session { difficulty_level := some "beginner" }
      ["comfortable", "comfortable", "comfortable"] []).1 = "intermediate" ∧
    (evaluate_session { difficulty_level := some "beginner" }
      ["comfortable", "comfortable", "comfortable"] []).2.congratulate = true := by
  have h := evaluate_session_step_up { difficulty_level := some "beginner" }
    ["comfortable", "comfortable", "comfortable"] []
    (by decide) (by decide) (by decide)
  exact ⟨by rw [h.1]; decide, h.2.1.mpr (by decide)⟩

/-- C5 counterexample: a `too-hard` feedback for a user already at beginner
is logged but produces `difficulty_changed = false` and
`immediate_action = false`, refuting the claim that every `too-hard`
feedback reports a change with `immediate_action = true`. -/
theorem process_difficulty_feedback_counterexample :
    get_user_difficulty ({ difficulty_level := some "beginner" } : UserRecord)
      = "beginner" ∧
    (process_difficulty_feedback { difficulty_level := some "beginner" }
      "too-hard" "shoulder-1").2.immediate_action = false ∧
    (process_difficulty_feedback { difficulty_level := some "beginner" }
      "too-hard" "shoulder-1").2.difficulty_changed = false := by
  decide

/-- C5 (amended): `process_difficulty_feedback` appends the feedback event
to the log on every path; `too-hard` feedback above the floor immediately
steps the level one position easier and reports the change with
`immediate_action = true`; `too-hard` at beginner and every other feedback
level leave the level unchanged and report no change. -/
theorem process_difficulty_feedback_spec (db : UserRecord) (level ex : String) :
    (process_difficulty_feedback db level ex).1.exercise_feedback =
      (log_exercise_feedback db ex level).1.exercise_feedback ∧
    (level = FEEDBACK_TOO_HARD → get_user_difficulty db ≠ "beginner" →
      get_user_difficulty (process_difficulty_feedback db level ex).1 =
        easierLevel (get_user_difficulty db) ∧
      (process_difficulty_feedback db level ex).2.difficulty_changed = true ∧
      (process_difficulty_feedback db level ex).2.immediate_action = true) ∧
    (level = FEEDBACK_TOO_HARD → get_user_difficulty db = "beginner" →
      get_user_difficulty (process_difficulty_feedback db level ex).1 =
        "beginner" ∧
      (process_difficulty_feedback db level ex).2.difficulty_changed = false ∧
      (process_difficulty_feedback db level ex).2.immediate_action = false) ∧
    (level ≠ FEEDBACK_TOO_HARD →
      get_user_difficulty (process_difficulty_feedback db level ex).1 =
        get_user_difficulty db ∧
      (process_difficulty_feedback db level ex).2.difficulty_changed = false ∧
      (process_difficulty_feedback db level ex).2.immediate_action = false) := by
  by_cases hl : level = FEEDBACK_TOO_HARD
  · simp only [process_difficulty_feedback, hl, if_true]
    rw [get_user_difficulty_log_exercise_feedback]
    rcases get_user_difficulty_cases db with hd | hd | hd <;> rw [hd]
    · rw [if_neg (by decide : ¬ DIFFICULTY_LEVELS.indexOf "beginner" > 0)]
      dsimp only
      exact ⟨rfl, fun _ hne => absurd rfl hne,
        fun _ _ => ⟨(get_user_difficulty_log_exercise_feedback db ex
          FEEDBACK_TOO_HARD).trans hd, rfl, rfl⟩,
        fun hne => absurd rfl hne⟩
    · rw [if_pos (by decide : DIFFICULTY_LEVELS.indexOf "intermediate" > 0),
          getD_easier_intermediate]
      dsimp only
      refine ⟨by simp [set_user_difficulty_feedback], fun _ _ => ⟨?_, rfl, rfl⟩,
        fun _ hb => absurd hb (by decide), fun hne => absurd rfl hne⟩
      rw [easierLevel_intermediate, get_user_difficulty_log_difficulty_change,
          set_user_difficulty_fst _ _ (by decide), get_user_difficulty_set]
      decide
    · rw [if_pos (by decide : DIFFICULTY_LEVELS.indexOf "advanced" > 0),
          getD_easier_advanced]
      dsimp only
      refine ⟨by simp [set_user_difficulty_feedback], fun _ _ => ⟨?_, rfl, rfl⟩,
        fun _ hb => absurd hb (by decide), fun hne => absurd rfl hne⟩
      rw [easierLevel_advanced, get_user_difficulty_log_difficulty_change,
          set_user_difficulty_fst _ _ (by decide), get_user_difficulty_set]
      decide
  · simp [process_difficulty_feedback, hl]

/-- Witness for C5: `too-hard` at intermediate immediately steps down. -/
theorem process_difficulty_feedback_spec_witness :
    get_user_difficulty ({ difficulty_level := some "intermediate" } : UserRecord)
      ≠ "beginner" ∧
    get_user_difficulty (process_difficulty_feedback
      { difficulty_level := some "intermediate" } "too-hard" "shoulder-1").1
      = "beginner" ∧
    (process_difficulty_feedback { difficulty_level := some "intermediate" }
      "too-hard" "shoulder-1").2.immediate_action = true := by
  have h := (process_difficulty_feedback_spec
    { difficulty_level := some "intermediate" } "too-hard" "shoulder-1").2.1
    rfl (by decide)
  exact ⟨by decide, by rw [h.1]; decide, h.2.2⟩

/-! ## difficulty_engine.py : session-progress persistence -/

/-- `clear_session_progress`: removes the `session_progress` attribute. -/
def clear_session_progress (db : UserRecord) : UserRecord :=
  { db with session_progress := none }

/-- `get_session_progress`: returns the saved snapshot unless it is absent
or expired.  The source computes `(now - last_updated).days >= 7` on a
`timedelta`, whose `days` is the floor of the difference over one day; here
timestamps are seconds and the day count is `Int.fdiv` (floor division) by
86400.  An expired snapshot is cleared and reported absent. -/
def get_session_progress (db : UserRecord) (now : Int) :
    UserRecord × Option Snapshot :=
  match db.session_progress with
  | none => (db, none)
  | some sp =>
    match sp.last_updated with
    | some lu =>
      if (now - lu).fdiv 86400 ≥ 7 then (clear_session_progress db, none)
      else (db, some sp)
    | none => (db, some sp)

/-! ## deploy/session_flow.py : the session state machine -/

/-- An exercise record from the catalog; only `id` is ever consulted by the
session-flow logic, so the other catalog fields are not modelled. -/
structure Exercise where
  id : String
deriving DecidableEq, Repr, Inhabited

/-- The exercise-catalog lookup `get_exercise_routine(exercise_type,
difficulty)`, passed in as an explicit parameter (the catalog is static
data, opaque to the session logic). -/
def Catalog := String → String → List Exercise

/-- `should_check_difficulty_feedback`: ask after every second exercise
(index is 0-based, `check_frequency = 2`). -/
def should_check_difficulty_feedback (exercise_index : Nat) : Bool :=
  (exercise_index + 1) % 2 == 0

/-- Python's pad-then-assign idiom
`while len(l) <= i: l.append(d)` followed by `l[i] = v`. -/
def padSet (l : List α) (i : Nat) (v d : α) : List α :=
  (l ++ List.replicate (i + 1 - l.length) d).set i v

/-- `SessionState`: the per-session mutable fields that the session-flow
operations read or write.  Wall-clock strings (`start_time`,
`last_action_time`) and `time.time()` seconds are both modelled as `Int`
instants. -/
structure SessionState where
  user_id : String := "user"
  exercise_type : String := "physical"
  current_index : Nat := 0
  difficulty : String := "beginner"
  exercises : List Exercise := []
  completed : Bool := false
  skips : List String := []
  repeats : List Nat := []
  completion_times : List Int := []
  feedback : List String := []
  last_action_time : Int := 0
  last_exercise_start_time : Int := 0
  should_ask_feedback : Bool := false
  pending_congratulation : Bool := false
deriving DecidableEq, Repr

/-- `SessionState.__init__`: fresh session at index 0 with the user's
current difficulty and the catalog routine for it. -/
def SessionState.init (catalog : Catalog) (db : UserRecord)
    (user_id exercise_type : String) (now : Int) : SessionState :=
  let difficulty := get_user_difficulty db
  { user_id := user_id, exercise_type := exercise_type, current_index := 0,
    difficulty := difficulty, exercises := catalog exercise_type difficulty,
    completed := false, skips := [], repeats := [], completion_times := [],
    feedback := [], last_action_time := now, last_exercise_start_time := now,
    should_ask_feedback := false, pending_congratulation := false }

/-- `get_current_exercise`: the exercise at `current_index`, or `none` when
the list is empty or the index is out of range. -/
def SessionState.get_current_exercise (s : SessionState) : Option Exercise :=
  if s.exercises.length = 0 ∨ s.current_index ≥ s.exercises.length then none
  else s.exercises[s.current_index]?

/-- `advance`: records the elapsed time for the current exercise into
`completion_times` (pad-then-assign), then, unless at the last position,
moves to the next index, resets the elapsed-time anchor and recomputes
`should_ask_feedback`, returning `true`; at the last position it returns
`false` without moving. -/
def SessionState.advance (s : SessionState) (now : Int) :
    SessionState × Bool :=
  let completion_time := now - s.last_exercise_start_time
  let new_times := padSet s.completion_times s.current_index completion_time 0
  let s1 := { s with completion_times := new_times }
  if s1.current_index < s1.exercises.length - 1 then
    ({ s1 with current_index := s1.current_index + 1,
               last_action_time := now,
               last_exercise_start_time := now,
               should_ask_feedback :=
                 should_check_difficulty_feedback (s1.current_index + 1) },
     true)
  else (s1, false)

/-- `skip`: appends the current exercise's id to `skips` (when there is
one), then, unless at the last position, moves to the next index exactly as
`advance` does; it does not touch `completion_times`. -/
def SessionState.skip (s : SessionState) (now : Int) : SessionState × Bool :=
  let s1 := match s.get_current_exercise with
    | some ex => { s with skips := s.skips ++ [ex.id] }
    | none => s
  if s1.current_index < s1.exercises.length - 1 then
    ({ s1 with current_index := s1.current_index + 1,
               last_action_time := now,
               last_exercise_start_time := now,
               should_ask_feedback :=
                 should_check_difficulty_feedback (s1.current_index + 1) },
     true)
  else (s1, false)

/-- `repeat`: increments the repeat counter at `current_index`
(pad-then-assign) and resets the elapsed-time anchor. -/
def SessionState.repeat (s : SessionState) (now : Int) : SessionState :=
  let padded := s.repeats ++
    List.replicate (s.current_index + 1 - s.repeats.length) 0
  let new_repeats :=
    padded.set s.current_index (padded.getD s.current_index 0 + 1)
  { s with repeats := new_repeats, last_exercise_start_time := now }

/-- `record_feedback`: stores the level at `current_index` in `feedback`
(pad-then-assign with `""` placeholders), then forwards to
`process_difficulty_feedback` when a current exercise exists.  In the
no-exercise path the source returns the bare `{"difficulty_changed": False}`
dictionary; its absent keys are modelled by the result defaults, matching
the callers' `.get(key, False)` reads. -/
def SessionState.record_feedback (s : SessionState) (db : UserRecord)
    (feedback_level : String) : SessionState × UserRecord × FeedbackResult :=
  let new_feedback := padSet s.feedback s.current_index feedback_level ""
  let s1 := { s with feedback := new_feedback }
  match s1.get_current_exercise with
  | some ex =>
    let r := process_difficulty_feedback db feedback_level ex.id
    (s1, r.1, r.2)
  | none =>
    (s1, db, { difficulty_changed := false, immediate_action := false })

/-- `is_complete`: at (or beyond) the last position. -/
def SessionState.is_complete (s : SessionState) : Bool :=
  s.current_index ≥ s.exercises.length - 1

/-- `mark_completed`: sets `completed`, evaluates the session summary
(feedback list plus the per-entry truthiness of the skip record — a stored
id is truthy exactly when it is a nonempty string), stores the resulting
congratulation flag, and clears the persisted resume copy. -/
def SessionState.mark_completed (s : SessionState) (db : UserRecord)
    (now : Int) : SessionState × UserRecord × EvalResult :=
  let s1 := { s with completed := true, last_action_time := now }
  let ev := evaluate_session db s1.feedback (s1.skips.map (fun i => i != ""))
  let s2 := { s1 with pending_congratulation := ev.2.congratulate }
  (s2, clear_session_progress ev.1, ev.2)

/-! ### IEEE-754 binary64 model for `reload_exercises`'s index arithmetic

`reload_exercises` computes `int(current_index / max(1, old_len) * new_len)`
in Python float (IEEE-754 binary64) arithmetic, which does not always equal
the exact rational floor: `(3 / 11) * 55` evaluates to a double just below
`15.0`, so `int` yields `14` while the exact floor is `15`.  The model
below reproduces CPython's evaluation exactly: `int / int` is the correctly
rounded (nearest, ties-to-even) binary64 quotient of the two integers;
`float * int` converts the integer to the nearest binary64 and performs a
correctly rounded binary64 multiplication; `int(...)` truncates toward
zero.  Exponent overflow and subnormals are outside the model — they would
need session or routine lists of length beyond 2^1022.  (Validated against
CPython on all 146480 inputs with `old_len ≤ 60`, `new_len ≤ 80`, and on
large randomized inputs.) -/

/-- `⌊log2 n⌋` (0 at 0) by structural recursion on a fuel bound, so that it
reduces inside the kernel. -/
def log2fuel : Nat → Nat → Nat
  | 0, _ => 0
  | fuel + 1, n => if n ≥ 2 then log2fuel fuel (n / 2) + 1 else 0

/-- `⌊log2 n⌋` (0 at 0): `n` itself always suffices as fuel. -/
def natLog2 (n : Nat) : Nat := log2fuel n n

/-- A nonnegative binary64 value `m·2^e`; after every rounding step `m` is
0 or lies in `[2^52, 2^53)`. -/
structure Dyadic where
  m : Nat
  e : Int
deriving DecidableEq, Repr

/-- Round the integer `p` to 53 significant bits (nearest, ties-to-even):
the binary64 value closest to `p`.  This is CPython's int-to-float
conversion for nonnegative `p`. -/
def roundNat53 (p : Nat) : Dyadic :=
  if p < 2 ^ 53 then ⟨p, 0⟩
  else
    let s := natLog2 p - 52
    let q := p / 2 ^ s
    let r := p % 2 ^ s
    let half := 2 ^ (s - 1)
    let q' := if r > half then q + 1
      else if r < half then q
      else if q % 2 = 0 then q else q + 1
    if q' < 2 ^ 53 then ⟨q', (s : Int)⟩ else ⟨q' / 2, (s : Int) + 1⟩

/-- Round the quotient `num / den` (`den ≠ 0`) to the nearest binary64,
ties-to-even: the value CPython's int-by-int true division produces.  The
scaling exponent is chosen from `⌊log2 (num/den)⌋`, computed from the two
integer logs corrected by one exact comparison, so the scaled quotient `q`
lands in `[2^52, 2^53)` and `r/den2` is the fraction of one ulp. -/
def roundDiv53 (num den : Nat) : Dyadic :=
  if num = 0 then ⟨0, 0⟩
  else
    let d0 : Int := (natLog2 num : Int) - (natLog2 den : Int)
    let d : Int :=
      if num * 2 ^ (-d0).toNat ≥ den * 2 ^ d0.toNat then d0 else d0 - 1
    let a : Int := 52 - d
    let n2 := num * 2 ^ a.toNat
    let den2 := den * 2 ^ (-a).toNat
    let q := n2 / den2
    let r := n2 % den2
    let q' := if 2 * r > den2 then q + 1
      else if 2 * r < den2 then q
      else if q % 2 = 0 then q else q + 1
    if q' < 2 ^ 53 then ⟨q', -a⟩ else ⟨q' / 2, -a + 1⟩

/-- Correctly rounded binary64 multiplication of nonnegative values: the
product of the two exact significands rounded back to 53 bits. -/
def mulDyadic (x y : Dyadic) : Dyadic :=
  let p := roundNat53 (x.m * y.m)
  ⟨p.m, p.e + x.e + y.e⟩

/-- Truncate a nonnegative binary64 value toward zero: Python's `int()`. -/
def Dyadic.toNatTrunc (x : Dyadic) : Nat :=
  if x.e ≥ 0 then x.m * 2 ^ x.e.toNat else x.m / 2 ^ (-x.e).toNat

/-- `int(current_index / max(1, old_len) * new_len)` exactly as CPython
evaluates it: correctly rounded division of the two ints, conversion of
`new_len` to the nearest binary64, binary64 multiplication, truncation. -/
def pyFloatRemap (current_index old_len new_len : Nat) : Nat :=
  (mulDyadic (roundDiv53 current_index (max 1 old_len))
    (roundNat53 new_len)).toNatTrunc

/-- `reload_exercises`: re-reads the user's difficulty, re-fetches the
routine for the same exercise type, remaps `current_index` proportionally
via the binary64 computation `pyFloatRemap`, and resets the elapsed-time
anchor.  (With an empty new routine the source would produce index `-1`;
`Nat` clamps that corner to `0`, and every claim about this operation
assumes a nonempty new routine.) -/
def SessionState.reload_exercises (s : SessionState) (catalog : Catalog)
    (db : UserRecord) (now : Int) : SessionState :=
  let difficulty := get_user_difficulty db
  let exercises := catalog s.exercise_type difficulty
  let new_index := min (exercises.length - 1)
    (pyFloatRemap s.current_index s.exercises.length exercises.length)
  { s with difficulty := difficulty, exercises := exercises,
           current_index := new_index, last_exercise_start_time := now }

/-- `save_progress` / `save_session_progress`: snapshots the session into
the user record with the write time as `last_updated`. -/
def SessionState.save_progress (s : SessionState) (db : UserRecord)
    (now : Int) : UserRecord × Bool :=
  let data : Snapshot :=
    { last_updated := some now,
      exerciseType := s.exercise_type,
      currentIndex := s.current_index,
      difficultyLevel := s.difficulty,
      exercise_ids := s.exercises.map (fun e => e.id),
      skips := s.skips, repeats := s.repeats, feedback := s.feedback }
  ({ db with session_progress := some data }, true)

/-- `resume_session`: loads the saved snapshot through
`get_session_progress`; when one is returned, builds a fresh
`SessionState` for the snapshot's exercise type and overwrites its
difficulty, index and tracking arrays with the saved values. -/
def resume_session (catalog : Catalog) (db : UserRecord) (user_id : String)
    (now : Int) : UserRecord × Option SessionState :=
  let gp := get_session_progress db now
  match gp.2 with
  | none => (gp.1, none)
  | some sp =>
    let s0 := SessionState.init catalog gp.1 user_id sp.exerciseType now
    (gp.1, some { s0 with difficulty := sp.difficultyLevel,
                          current_index := sp.currentIndex,
                          skips := sp.skips, repeats := sp.repeats,
                          feedback := sp.feedback })


/-! ## Claim theorems for the Session State Machine -/

/-- C3 (amended): `skip` and `advance` agree on the returned flag,
`current_index`, `should_ask_feedback` and the elapsed-time anchor, and at
the final position both report "no more exercises" without moving the
index; they differ in exactly two effects: `skip` appends the current
exercise's id to `skips`, and only `advance` records a completion time. -/
theorem skip_eq_advance_except (s : SessionState) (now : Int) :
    (s.skip now).2 = (s.advance now).2 ∧
    (s.skip now).1.current_index = (s.advance now).1.current_index ∧
    (s.skip now).1.should_ask_feedback = (s.advance now).1.should_ask_feedback ∧
    (s.skip now).1.last_exercise_start_time =
      (s.advance now).1.last_exercise_start_time ∧
    (s.skip now).1.skips =
      s.skips ++ (match s.get_current_exercise with
                  | some ex => [ex.id]
                  | none => []) ∧
    (s.skip now).1.completion_times = s.completion_times ∧
    (s.advance now).1.completion_times =
      padSet s.completion_times s.current_index
        (now - s.last_exercise_start_time) 0 ∧
    (¬ s.current_index < s.exercises.length - 1 →
      (s.skip now).2 = false ∧
      (s.skip now).1.current_index = s.current_index ∧
      (s.advance now).2 = false ∧
      (s.advance now).1.current_index = s.current_index) := by
  by_cases hidx : s.current_index < s.exercises.length - 1 <;>
    cases hex : s.get_current_exercise <;>
    simp [SessionState.skip, SessionState.advance, hex, hidx]

/-- Witness for C3: at the final position (index 1 of 2) both `skip` and
`advance` report completion without moving the index. -/
theorem skip_eq_advance_except_witness :
    ¬ (({ exercises := [⟨"a"⟩, ⟨"b"⟩], current_index := 1 } :
        SessionState).current_index <
      ([⟨"a"⟩, ⟨"b"⟩] : List Exercise).length - 1) ∧
    (({ exercises := [⟨"a"⟩, ⟨"b"⟩], current_index := 1 } :
      SessionState).skip 5).2 = false ∧
    (({ exercises := [⟨"a"⟩, ⟨"b"⟩], current_index := 1 } :
      SessionState).advance 5).2 = false ∧
    (({ exercises := [⟨"a"⟩, ⟨"b"⟩], current_index := 1 } :
      SessionState).skip 5).1.current_index = 1 := by
  have h := skip_eq_advance_except
    { exercises := [⟨"a"⟩, ⟨"b"⟩], current_index := 1 } 5
  have h8 := h.2.2.2.2.2.2.2 (by decide)
  exact ⟨by decide, h8.1, h8.2.2.1, h8.2.1⟩

/-- C3 counterexample: at index 0 of a two-exercise session, `advance`
writes a completion time while `skip` leaves `completion_times` untouched,
refuting "skip() and advance() make the same updates to ...
completion_times". -/
theorem skip_advance_counterexample :
    (({ exercises := [⟨"a"⟩, ⟨"b"⟩] } : SessionState).skip 5).1.completion_times
      = [] ∧
    (({ exercises := [⟨"a"⟩, ⟨"b"⟩] } :
        SessionState).advance 5).1.completion_times = [5] ∧
    (({ exercises := [⟨"a"⟩, ⟨"b"⟩] } : SessionState).skip 5).1.completion_times
      ≠ (({ exercises := [⟨"a"⟩, ⟨"b"⟩] } :
        SessionState).advance 5).1.completion_times := by
  decide

/-- One session-mutating operation, with the wall-clock instant or feedback
arguments it takes. -/
inductive SessionOp where
  | advanceOp : Int → SessionOp
  | skipOp : Int → SessionOp
  | repeatOp : Int → SessionOp
  | feedbackOp : UserRecord → String → SessionOp
deriving Repr

/-- Apply one operation to the session state (the session-state component
of each operation's result). -/
def applyOp (s : SessionState) : SessionOp → SessionState
  | SessionOp.advanceOp now => (s.advance now).1
  | SessionOp.skipOp now => (s.skip now).1
  | SessionOp.repeatOp now => s.repeat now
  | SessionOp.feedbackOp db level => (s.record_feedback db level).1

def applyOps (s : SessionState) (ops : List SessionOp) : SessionState :=
  ops.foldl applyOp s

def advanceMany (s : SessionState) (nows : List Int) : SessionState :=
  nows.foldl (fun st t => (st.advance t).1) s

theorem advance_fst_exercises (s : SessionState) (now : Int) :
    (s.advance now).1.exercises = s.exercises := by
  simp only [SessionState.advance]
  split <;> rfl

theorem advance_fst_index (s : SessionState) (now : Int) :
    (s.advance now).1.current_index =
      if s.current_index < s.exercises.length - 1 then s.current_index + 1
      else s.current_index := by
  simp only [SessionState.advance]
  split <;> simp_all

theorem advance_snd (s : SessionState) (now : Int) :
    (s.advance now).2 = true ↔ s.current_index < s.exercises.length - 1 := by
  simp only [SessionState.advance]
  split <;> simp_all

theorem applyOp_exercises (s : SessionState) (op : SessionOp) :
    (applyOp s op).exercises = s.exercises := by
  cases op with
  | advanceOp now => exact advance_fst_exercises s now
  | skipOp now =>
    simp only [applyOp, SessionState.skip]
    cases hex : s.get_current_exercise <;> dsimp only <;> split <;> rfl
  | repeatOp now => rfl
  | feedbackOp db level =>
    simp only [applyOp, SessionState.record_feedback]
    cases hex : SessionState.get_current_exercise _ <;> rfl

theorem applyOp_index (s : SessionState) (op : SessionOp)
    (h : s.current_index < s.exercises.length) :
    (applyOp s op).current_index < s.exercises.length := by
  cases op with
  | advanceOp now =>
    simp only [applyOp]
    rw [advance_fst_index]
    split <;> omega
  | skipOp now =>
    simp only [applyOp, SessionState.skip]
    cases hex : s.get_current_exercise <;> dsimp only <;> split <;>
      simp_all <;> omega
  | repeatOp now => exact h
  | feedbackOp db level =>
    simp only [applyOp, SessionState.record_feedback]
    cases hex : SessionState.get_current_exercise _ <;> exact h

theorem advanceMany_linear : ∀ (nows : List Int) (s : SessionState),
    s.current_index + nows.length ≤ s.exercises.length - 1 →
    (advanceMany s nows).current_index = s.current_index + nows.length ∧
    (advanceMany s nows).exercises = s.exercises := by
  intro nows
  induction nows with
  | nil => intro s _; exact ⟨rfl, rfl⟩
  | cons t rest ih =>
    intro s h
    have hlt : s.current_index < s.exercises.length - 1 := by
      simp at h; omega
    have hstep := advance_fst_index s t
    rw [if_pos hlt] at hstep
    have hex := advance_fst_exercises s t
    have := ih (s.advance t).1 (by rw [hstep, hex]; simp at h ⊢; omega)
    rw [advanceMany, List.foldl_cons] at *
    refine ⟨?_, this.2.trans hex⟩
    rw [this.1, hstep]
    simp
    omega

/-- C7: for any session with `current_index` inside the (nonempty) exercise
list, every sequence of advance/skip/repeat/record_feedback calls keeps
`current_index` strictly below the unchanged list length (it is a `Nat`, so
`0 ≤ current_index` holds by type); and from a fresh session (index 0),
`len − 1` advances land exactly on the last position, after which a further
`advance` returns `false` without moving the index. -/
theorem session_index_invariant :
    (∀ (s : SessionState) (ops : List SessionOp),
      s.current_index < s.exercises.length →
      (applyOps s ops).exercises = s.exercises ∧
      (applyOps s ops).current_index < s.exercises.length) ∧
    (∀ (s : SessionState) (nows : List Int),
      s.current_index = 0 → nows.length = s.exercises.length - 1 →
      s.exercises ≠ [] →
      (advanceMany s nows).current_index = s.exercises.length - 1 ∧
      ∀ t : Int, ((advanceMany s nows).advance t).2 = false ∧
        ((advanceMany s nows).advance t).1.current_index =
          s.exercises.length - 1) := by
  constructor
  · intro s ops
    induction ops generalizing s with
    | nil => intro h; exact ⟨rfl, h⟩
    | cons op rest ih =>
      intro h
      have h1 := applyOp_exercises s op
      have h2 := applyOp_index s op h
      have := ih (applyOp s op) (by rw [h1]; exact h2)
      rw [applyOps, List.foldl_cons]
      exact ⟨(this.1).trans h1, by rw [applyOps] at this; rw [h1] at this; exact this.2⟩
  · intro s nows h0 hlen hne
    have hlin := advanceMany_linear nows s (by omega)
    have hidx : (advanceMany s nows).current_index = s.exercises.length - 1 := by
      rw [hlin.1]; omega
    refine ⟨hidx, fun t => ?_⟩
    have hnot : ¬ (advanceMany s nows).current_index <
        (advanceMany s nows).exercises.length - 1 := by
      rw [hidx, hlin.2]
      omega
    constructor
    · have := advance_snd (advanceMany s nows) t
      rcases hb : ((advanceMany s nows).advance t).2
      · rfl
      · exact absurd (this.mp hb) hnot
    · rw [advance_fst_index, if_neg hnot, hidx]

/-- Witness for C7: a fresh three-exercise session; two advances reach the
last index and the third signals completion without moving. -/
theorem session_index_invariant_witness :
    (advanceMany ({ exercises := [⟨"a"⟩, ⟨"b"⟩, ⟨"c"⟩] } : SessionState)
      [1, 2]).current_index = 2 ∧
    ((advanceMany ({ exercises := [⟨"a"⟩, ⟨"b"⟩, ⟨"c"⟩] } : SessionState)
      [1, 2]).advance 3).2 = false ∧
    ((advanceMany ({ exercises := [⟨"a"⟩, ⟨"b"⟩, ⟨"c"⟩] } : SessionState)
      [1, 2]).advance 3).1.current_index = 2 := by
  have h := session_index_invariant.2
    { exercises := [⟨"a"⟩, ⟨"b"⟩, ⟨"c"⟩] } [1, 2] rfl (by decide) (by decide)
  exact ⟨h.1, (h.2 3).1, (h.2 3).2⟩


theorem padSet_length (l : List α) (i : Nat) (v d : α) :
    (padSet l i v d).length = max l.length (i + 1) := by
  simp [padSet]
  omega

theorem padSet_get_self (l : List α) (i : Nat) (v d : α) :
    (padSet l i v d)[i]? = some v := by
  unfold padSet
  rw [List.getElem?_set_self]
  simp
  omega

theorem padSet_get_keep (l : List α) (i : Nat) (v d : α) (j : Nat)
    (hj : j < l.length) (hne : j ≠ i) :
    (padSet l i v d)[j]? = l[j]? := by
  unfold padSet
  rw [List.getElem?_set_ne (fun he => hne he.symm),
      List.getElem?_append_left hj]

theorem padSet_get_pad (l : List α) (i : Nat) (v d : α) (j : Nat)
    (h1 : l.length ≤ j) (h2 : j < i) :
    (padSet l i v d)[j]? = some d := by
  unfold padSet
  rw [List.getElem?_set_ne (fun he => absurd he.symm (Nat.ne_of_lt h2)),
      List.getElem?_append_right h1, List.getElem?_replicate, if_pos (by omega)]

/-- C8 counterexample: at index 3 of an 11-exercise list reloaded into a
55-exercise routine, the program's binary64 computation `(3/11)*55` rounds
just below `15.0`, so the new index is 14, while the claimed exact formula
`floor((3/11)·55)` clamped to `[0, 54]` is 15. -/
theorem reload_exercises_counterexample :
    (({ exercises := List.replicate 11 ⟨"y"⟩, current_index := 3 } :
        SessionState).reload_exercises
        (fun _ _ => List.replicate 55 ⟨"x"⟩) {} 0).current_index = 14 ∧
    3 * 55 / 11 = 15 ∧
    min (55 - 1) (3 * 55 / 11) = 15 ∧
    (({ exercises := List.replicate 11 ⟨"y"⟩, current_index := 3 } :
        SessionState).reload_exercises
        (fun _ _ => List.replicate 55 ⟨"x"⟩) {} 0).current_index ≠
      min (55 - 1) (3 * 55 / 11) := by
  decide

/-- C8 (amended): `reload_exercises` re-reads the difficulty, re-fetches
the routine for the same exercise type, and sets `current_index` to
`min(new_len − 1, int(old_index / old_len · new_len))` evaluated in IEEE
binary64 arithmetic (`pyFloatRemap`), which always lands strictly below the
new length; the binary64 value agrees with the exact floor formula on the
spec's example — every session at index 2 of a 5-exercise list reloaded
into a 10-exercise list lands at index 4 — but not universally. -/
theorem reload_exercises_float_spec (s : SessionState) (catalog : Catalog)
    (db : UserRecord) (now : Int)
    (hnew : catalog s.exercise_type (get_user_difficulty db) ≠ []) :
    (s.reload_exercises catalog db now).difficulty = get_user_difficulty db ∧
    (s.reload_exercises catalog db now).exercises =
      catalog s.exercise_type (get_user_difficulty db) ∧
    (s.reload_exercises catalog db now).current_index =
      min ((catalog s.exercise_type (get_user_difficulty db)).length - 1)
        (pyFloatRemap s.current_index s.exercises.length
          (catalog s.exercise_type (get_user_difficulty db)).length) ∧
    (s.reload_exercises catalog db now).current_index <
      (catalog s.exercise_type (get_user_difficulty db)).length ∧
    (∀ (s2 : SessionState) (cat2 : Catalog) (db2 : UserRecord) (t2 : Int),
      s2.current_index = 2 → s2.exercises.length = 5 →
      (cat2 s2.exercise_type (get_user_difficulty db2)).length = 10 →
      (s2.reload_exercises cat2 db2 t2).current_index = 4) := by
  have hlen := List.length_pos.mpr hnew
  refine ⟨rfl, rfl, rfl, ?_, ?_⟩
  · simp only [SessionState.reload_exercises]
    have : min ((catalog s.exercise_type (get_user_difficulty db)).length - 1)
        (pyFloatRemap s.current_index s.exercises.length
          (catalog s.exercise_type (get_user_difficulty db)).length) ≤
        (catalog s.exercise_type (get_user_difficulty db)).length - 1 :=
      Nat.min_le_left _ _
    omega
  · intro s2 cat2 db2 t2 hi ho hn
    simp only [SessionState.reload_exercises]
    rw [hi, ho, hn]
    decide

/-- Witness for C8: the spec example — index 2 of 5 (fraction 0.4)
reloaded into a 10-exercise list lands at index 4, strictly inside the new
list. -/
theorem reload_exercises_float_spec_witness :
    ((fun _ _ => List.replicate 10 (⟨"x"⟩ : Exercise)) : Catalog) "physical"
      (get_user_difficulty {}) ≠ [] ∧
    (({ exercises := List.replicate 5 ⟨"y"⟩, current_index := 2 } :
        SessionState).reload_exercises
        (fun _ _ => List.replicate 10 ⟨"x"⟩) {} 0).current_index = 4 ∧
    (({ exercises := List.replicate 5 ⟨"y"⟩, current_index := 2 } :
        SessionState).reload_exercises
        (fun _ _ => List.replicate 10 ⟨"x"⟩) {} 0).current_index <
      (((fun _ _ => List.replicate 10 (⟨"x"⟩ : Exercise)) : Catalog) "physical"
        (get_user_difficulty {})).length := by
  have h := reload_exercises_float_spec
    { exercises := List.replicate 5 ⟨"y"⟩, current_index := 2 }
    (fun _ _ => List.replicate 10 ⟨"x"⟩) {} 0 (by decide)
  exact ⟨by decide,
    h.2.2.2.2 { exercises := List.replicate 5 ⟨"y"⟩, current_index := 2 }
      (fun _ _ => List.replicate 10 ⟨"x"⟩) {} 0 rfl (by decide) (by decide),
    h.2.2.2.1⟩

/-- C10 counterexample: on a session state whose feedback list is already
longer than `current_index + 1` (reachable when `reload_exercises` shrinks
the index after feedback was recorded at a later position),
`record_feedback` leaves the length at 3, not `i + 1 = 1`. -/
theorem record_feedback_counterexample :
    (({ feedback := ["challenging", "challenging", "challenging"],
        current_index := 0 } : SessionState).record_feedback {}
      "comfortable").1.feedback.length = 3 ∧
    (({ feedback := ["challenging", "challenging", "challenging"],
        current_index := 0 } : SessionState).record_feedback {}
      "comfortable").1.feedback.length ≠ 0 + 1 := by
  decide

/-- C10 (amended): `record_feedback` pads the feedback list with `""` up
to `current_index` and stores the level there, leaving length
`max(old_length, i + 1)` (which is `i + 1` whenever the list was no longer
than that), the level at position `i`, `""` at each padded earlier
position, and earlier entries intact; and `evaluate_session` counts those
`""` placeholders in the comfortable-percentage denominator: at beginner,
`["comfortable", "comfortable", ""]` (2/3 ≤ 70%) does not step up while
`["comfortable", "comfortable"]` (2/2) does. -/
theorem record_feedback_spec (s : SessionState) (db : UserRecord)
    (level : String) :
    (s.record_feedback db level).1.feedback.length =
      max s.feedback.length (s.current_index + 1) ∧
    (s.record_feedback db level).1.feedback[s.current_index]? = some level ∧
    (∀ j, s.feedback.length ≤ j → j < s.current_index →
      (s.record_feedback db level).1.feedback[j]? = some "") ∧
    (∀ j, j < s.feedback.length → j ≠ s.current_index →
      (s.record_feedback db level).1.feedback[j]? = s.feedback[j]?) ∧
    (∀ db2 : UserRecord, get_user_difficulty db2 = "beginner" →
      (evaluate_session db2 ["comfortable", "comfortable", ""]
        []).2.difficulty_changed = false ∧
      (evaluate_session db2 ["comfortable", "comfortable"]
        []).2.difficulty_changed = true) := by
  have hfb : (s.record_feedback db level).1.feedback =
      padSet s.feedback s.current_index level "" := by
    simp only [SessionState.record_feedback]
    cases hex : SessionState.get_current_exercise _ <;> rfl
  refine ⟨by rw [hfb, padSet_length], by rw [hfb]; exact padSet_get_self _ _ _ _,
    fun j h1 h2 => by rw [hfb]; exact padSet_get_pad _ _ _ _ _ h1 h2,
    fun j h1 h2 => by rw [hfb]; exact padSet_get_keep _ _ _ _ _ h1 h2,
    fun db2 hdb2 => ?_⟩
  constructor
  · simp only [evaluate_session]
    rw [if_neg (by decide), if_neg (by decide)]
  · simp only [evaluate_session]
    rw [if_neg (by decide), if_pos (by decide), hdb2,
        if_pos (by decide : DIFFICULTY_LEVELS.indexOf "beginner" <
          DIFFICULTY_LEVELS.length - 1)]

/-- Witness for C10: recording at index 2 over `["challenging"]` pads with
one `""`, stores the level at index 2, and keeps the old entry. -/
theorem record_feedback_spec_witness :
    (({ feedback := ["challenging"], current_index := 2 } :
      SessionState).record_feedback {} "comfortable").1.feedback[1]? = some "" ∧
    (({ feedback := ["challenging"], current_index := 2 } :
      SessionState).record_feedback {} "comfortable").1.feedback[2]? =
      some "comfortable" ∧
    (({ feedback := ["challenging"], current_index := 2 } :
      SessionState).record_feedback {} "comfortable").1.feedback[0]? =
      some "challenging" ∧
    get_user_difficulty ({} : UserRecord) = "beginner" ∧
    (evaluate_session ({} : UserRecord) ["comfortable", "comfortable", ""]
      []).2.difficulty_changed = false := by
  have h := record_feedback_spec
    { feedback := ["challenging"], current_index := 2 } {} "comfortable"
  exact ⟨h.2.2.1 1 (by decide) (by decide), h.2.1,
    (h.2.2.2.1 0 (by decide) (by decide)).trans (by decide),
    by decide, (h.2.2.2.2 {} (by decide)).1⟩


/-- The counting loop of `calculate_streak`: walk the (descending) sorted
dates, incrementing on a one-day gap, skipping a zero-day gap, and stopping
at anything larger; `prev` is the previously visited date and `streak` the
count so far. -/
def streak_walk : Int → List Int → Nat → Nat
  | _, [], streak => streak
  | prev, c :: rest, streak =>
    if prev - c = 1 then streak_walk c rest (streak + 1)
    else if prev - c = 0 then streak_walk c rest streak
    else streak

/-- `calculate_streak` from `deploy/progress_tracker.py`.  Calendar dates
are embedded as integers (days since an arbitrary epoch): the source sorts
ISO `YYYY-MM-DD` strings, whose lexicographic order is day order, compares
the most recent against today's and yesterday's ISO strings, and steps
through `(prev - current).days`, the integer day difference.  `today` is
the wall-clock date at the moment of the call. -/
def calculate_streak (today : Int) (session_dates : List Int) : Nat :=
  if session_dates = [] then 0
  else
    match session_dates.insertionSort (· ≥ ·) with
    | [] => 0
    | d0 :: rest =>
      if d0 ≠ today ∧ d0 ≠ today - 1 then 0
      else streak_walk d0 rest 1

/-- Spec-side helper: collapse adjacent duplicates of a (sorted) date
list — the claim's "zero-day (duplicate) gaps are skipped". -/
def dedupAdj : List Int → List Int
  | [] => []
  | [a] => [a]
  | a :: b :: rest =>
    if a = b then dedupAdj (b :: rest) else a :: dedupAdj (b :: rest)

/-- Spec-side helper: the length of the maximal run of calendar-consecutive
days (each successive entry exactly one day earlier) starting at the head. -/
def consecutiveRunLength : List Int → Nat
  | [] => 0
  | [_] => 1
  | a :: b :: rest =>
    if a - b = 1 then consecutiveRunLength (b :: rest) + 1 else 1

theorem dedupAdj_head (rest : List Int) (c : Int) :
    ∃ t, dedupAdj (c :: rest) = c :: t := by
  induction rest generalizing c with
  | nil => exact ⟨[], rfl⟩
  | cons b r ih =>
    by_cases h : c = b
    · obtain ⟨t, ht⟩ := ih b
      exact ⟨t, by rw [dedupAdj, if_pos h, ht, h]⟩
    · exact ⟨dedupAdj (b :: r), by rw [dedupAdj, if_neg h]⟩

theorem streak_walk_add (l : List Int) : ∀ (p : Int) (n : Nat),
    streak_walk p l (n + 1) = streak_walk p l 1 + n := by
  induction l with
  | nil => intro p n; simp [streak_walk]; omega
  | cons c rest ih =>
    intro p n
    simp only [streak_walk]
    by_cases h1 : p - c = 1
    · rw [if_pos h1, if_pos h1, ih c (n + 1), ih c 1]
      omega
    · by_cases h0 : p - c = 0
      · rw [if_neg h1, if_pos h0, if_neg h1, if_pos h0, ih c n]
      · rw [if_neg h1, if_neg h0, if_neg h1, if_neg h0]
        omega

theorem streak_walk_spec (l : List Int) : ∀ d0 : Int,
    List.Sorted (· ≥ ·) (d0 :: l) →
    streak_walk d0 l 1 = consecutiveRunLength (dedupAdj (d0 :: l)) := by
  induction l with
  | nil => intro d0 _; rfl
  | cons c rest ih =>
    intro d0 hs
    have hs' : List.Sorted (· ≥ ·) (c :: rest) := (List.sorted_cons.mp hs).2
    by_cases h1 : d0 - c = 1
    · have hne : d0 ≠ c := by omega
      obtain ⟨t, ht⟩ := dedupAdj_head rest c
      rw [streak_walk, if_pos h1, streak_walk_add rest c 1, ih c hs',
          show dedupAdj (d0 :: c :: rest) = d0 :: dedupAdj (c :: rest) from
            by rw [dedupAdj, if_neg hne],
          ht]
      simp only [consecutiveRunLength]
      rw [if_pos h1]
    · by_cases h0 : d0 - c = 0
      · have heq : d0 = c := by omega
        rw [streak_walk, if_neg h1, if_pos h0, ih c hs',
            show dedupAdj (d0 :: c :: rest) = dedupAdj (c :: rest) from
              by rw [dedupAdj, if_pos heq]]
      · have hne : d0 ≠ c := by omega
        obtain ⟨t, ht⟩ := dedupAdj_head rest c
        rw [streak_walk, if_neg h1, if_neg h0,
            show dedupAdj (d0 :: c :: rest) = d0 :: dedupAdj (c :: rest) from
              by rw [dedupAdj, if_neg hne],
            ht]
        simp only [consecutiveRunLength]
        rw [if_neg h1]

/-- C6: `calculate_streak` returns 0 on an empty date set and 0 whenever
the most recent date is neither today nor yesterday; otherwise it returns
the length of the maximal run of calendar-consecutive days starting at the
most recent date, where duplicate (zero-gap) dates are skipped without
breaking the run and any gap of more than one day stops it; in particular
{today, yesterday, day-before} ↦ 3, {today, three-days-ago} ↦ 1, and
{yesterday} evaluated today ↦ 1 (the grace day). -/
theorem calculate_streak_spec :
    (∀ today : Int, calculate_streak today [] = 0) ∧
    (∀ (today : Int) (dates : List Int) (d0 : Int) (rest : List Int),
      dates.insertionSort (· ≥ ·) = d0 :: rest →
      d0 ≠ today → d0 ≠ today - 1 →
      calculate_streak today dates = 0) ∧
    (∀ (today : Int) (dates : List Int) (d0 : Int) (rest : List Int),
      dates.insertionSort (· ≥ ·) = d0 :: rest →
      (d0 = today ∨ d0 = today - 1) →
      calculate_streak today dates =
        consecutiveRunLength (dedupAdj (d0 :: rest))) ∧
    (calculate_streak 0 [0, -1, -2] = 3 ∧
     calculate_streak 0 [0, -3] = 1 ∧
     calculate_streak 0 [-1] = 1 ∧
     calculate_streak 0 [] = 0) := by
  have hnonempty : ∀ (dates : List Int) (d0 : Int) (rest : List Int),
      dates.insertionSort (· ≥ ·) = d0 :: rest → dates ≠ [] := by
    intro dates d0 rest hsort hcon
    rw [hcon] at hsort
    exact List.cons_ne_nil d0 rest hsort.symm
  refine ⟨fun _ => rfl, ?_, ?_, by decide, by decide, by decide, rfl⟩
  · intro today dates d0 rest hsort hn1 hn2
    rw [calculate_streak, if_neg (hnonempty dates d0 rest hsort), hsort]
    dsimp only
    rw [if_pos ⟨hn1, hn2⟩]
  · intro today dates d0 rest hsort hd
    have hsorted : List.Sorted (· ≥ ·) (d0 :: rest) := by
      rw [← hsort]; exact List.sorted_insertionSort (· ≥ ·) dates
    rw [calculate_streak, if_neg (hnonempty dates d0 rest hsort), hsort]
    dsimp only
    rw [if_neg (by tauto), streak_walk_spec rest d0 hsorted]

/-- Witness for C6: dates {today, yesterday, yesterday, three-days-ago} at
today = 5 — the duplicate is skipped, the gap stops the run, streak 2. -/
theorem calculate_streak_spec_witness :
    ([5, 4, 4, 2] : List Int).insertionSort (· ≥ ·) = [5, 4, 4, 2] ∧
    ((5 : Int) = 5 ∨ (5 : Int) = 5 - 1) ∧
    calculate_streak 5 [5, 4, 4, 2] =
      consecutiveRunLength (dedupAdj [5, 4, 4, 2]) ∧
    calculate_streak 5 [5, 4, 4, 2] = 2 :=
  ⟨by decide, Or.inl rfl,
    calculate_streak_spec.2.2.1 5 [5, 4, 4, 2] 5 [4, 4, 2] (by decide)
      (Or.inl rfl),
    by decide⟩


/-- C9: with a stored snapshot whose `last_updated` is `lu`, a load at
`now` reports no resumable session whenever the wall-clock difference is 7
or more (floored) days — so in particular for any snapshot older than 7
days — even though the record was present at call time; within the window
the snapshot is returned and `resume_session` rebuilds the session at the
saved index with the saved difficulty and tracking arrays (not the values a
fresh fetch would produce). -/
theorem session_resume_window (catalog : Catalog) (db : UserRecord)
    (uid : String) (sp : Snapshot) (lu now : Int)
    (hsp : db.session_progress = some sp)
    (hlu : sp.last_updated = some lu) :
    ((now - lu).fdiv 86400 ≥ 7 →
      (get_session_progress db now).2 = none ∧
      (resume_session catalog db uid now).2 = none) ∧
    (¬ (now - lu).fdiv 86400 ≥ 7 →
      (get_session_progress db now).2 = some sp ∧
      ∃ s : SessionState, (resume_session catalog db uid now).2 = some s ∧
        s.current_index = sp.currentIndex ∧
        s.difficulty = sp.difficultyLevel ∧
        s.skips = sp.skips ∧ s.repeats = sp.repeats ∧
        s.feedback = sp.feedback ∧ s.exercise_type = sp.exerciseType) := by
  constructor
  · intro h7
    have hg : (get_session_progress db now).2 = none := by
      simp only [get_session_progress, hsp, hlu]
      rw [if_pos h7]
    refine ⟨hg, ?_⟩
    simp only [resume_session]
    rw [hg]
  · intro h7
    have hg : (get_session_progress db now).2 = some sp := by
      simp only [get_session_progress, hsp, hlu]
      rw [if_neg h7]
    refine ⟨hg, ?_⟩
    simp only [resume_session]
    rw [hg]
    exact ⟨_, rfl, rfl, rfl, rfl, rfl, rfl, rfl⟩

/-- A concrete snapshot written at instant 0, used by the resume-window
witness. -/
def sampleSnapshot : Snapshot :=
  { last_updated := some 0, currentIndex := 3,
    difficultyLevel := "advanced", skips := ["a"] }

/-- A user record holding `sampleSnapshot`. -/
def sampleRecord : UserRecord :=
  { session_progress := some sampleSnapshot }

/-- An empty catalog, for witnesses where the routine content is moot. -/
def emptyCatalog : Catalog := fun _ _ => []

/-- Witness for C9: a six-day-old snapshot resumes with its saved state; a
seven-day-old one is reported absent. -/
theorem session_resume_window_witness :
    ¬ ((6 * 86400 - 0 : Int).fdiv 86400 ≥ 7) ∧
    (get_session_progress sampleRecord (6 * 86400)).2 = some sampleSnapshot ∧
    (∃ s : SessionState,
      (resume_session emptyCatalog sampleRecord "u" (6 * 86400)).2 = some s ∧
      s.current_index = 3 ∧ s.difficulty = "advanced" ∧ s.skips = ["a"]) ∧
    ((7 * 86400 - 0 : Int).fdiv 86400 ≥ 7 ∧
      (get_session_progress sampleRecord (7 * 86400)).2 = none ∧
      (resume_session emptyCatalog sampleRecord "u" (7 * 86400)).2 = none) := by
  have hin := (session_resume_window emptyCatalog sampleRecord "u"
    sampleSnapshot 0 (6 * 86400) rfl rfl).2 (by decide)
  have hout := (session_resume_window emptyCatalog sampleRecord "u"
    sampleSnapshot 0 (7 * 86400) rfl rfl).1 (by decide)
  obtain ⟨s, hs, h1, h2, h3, h4, h5, h6⟩ := hin.2
  exact ⟨by decide, hin.1, ⟨s, hs, h1, h2, h3⟩, by decide, hout.1, hout.2⟩

end RehabBuddy
